import Mathlib

/-!
# Plantas que Falam: the dashboard front end (`Saas/app.js`)

A shallow embedding of the polling, rendering, notification, theme and
date-formatting logic of `Saas/app.js`, and the properties of it that the
specification states.

Modelling conventions.

* JavaScript numbers that carry measurements are rationals (`ℚ`); a decimal
  literal of the source denotes its decimal value (`0.1` is `1/10`).
  Timestamps and timer periods are integers (`Int`), timer handles are
  naturals.
* The ambient mutable state of the page (the global `appState`, the elements
  that the script looks up by id, `localStorage`, the timer table of the
  browser, the platform notification permission) is one explicit record,
  `World`; every function of the source becomes a function on `World`.
* `document.getElementById(id)` of an element that may be missing is an
  `Option`: `none` when the page has no such element.
* Text that the script renders from numbers (template literals, `toFixed`)
  is kept as the list of its pieces, so that no number formatting is
  modelled.
* An `async` function is split at its suspension: the part that runs when it
  is called, and the part that runs when the awaited fetch settles.
* Effects that leave the page (constructed `Notification`s, issued `fetch`
  requests, console lines) are appended to logs held in `World`.
-/

namespace PlantasQueFalam

/-! ## Configuration (app.js lines 2-6) -/

/-- `CONFIG.API_BASE_URL`. -/
def API_BASE_URL : String := "/api/sensor"

/-- `CONFIG.REFRESH_INTERVAL`. -/
def REFRESH_INTERVAL : Int := 2000

/-- `CONFIG.CHART_MAX_POINTS`; declared by the source and read nowhere. -/
def CHART_MAX_POINTS : Nat := 20

/-! ## Payloads -/

/-- One element of `data.history`. -/
structure HistoryPoint where
  time : String
  magnitude : ℚ
deriving DecidableEq, Repr

/-- One element of `data.bands`. -/
structure Band where
  name : String
  range : String
  magnitude_db : ℚ
  color : String
deriving DecidableEq, Repr

/-- The decoded body of `GET /api/sensor/data`. -/
structure SensorReading where
  raw_value : ℚ
  voltage : ℚ
  dominant_magnitude : ℚ
  dominant_magnitude_db : ℚ
  average_magnitude : ℚ
  dominant_frequency : ℚ
  status : String
  plant_name : String
  history : List HistoryPoint
  bands : List Band
deriving DecidableEq, Repr

/-- One element of `analytics.frequency_distribution`. -/
structure FrequencyBucket where
  range : String
  percentage : ℚ
deriving DecidableEq, Repr

/-! ## Rendered text -/

/-- A piece of rendered text: a literal, a number converted by a template
literal, or a number formatted by `toFixed(digits)`. -/
inductive Piece where
  | lit (s : String)
  | num (x : ℚ)
  | fixed (x : ℚ) (digits : Nat)
deriving DecidableEq, Repr

/-- Rendered text: the concatenation of its pieces. -/
abbrev Text := List Piece

/-! ## Charts -/

/-- The single dataset (`datasets[0]`) of a chart built by this script. -/
structure Dataset where
  label : Option String
  data : List ℚ
  backgroundColor : List String
  borderColor : List String
deriving DecidableEq, Repr

/-- A chart instance of the charting library: its kind, its labels, its
dataset and how many times `update('none')` was called on it.  The constant
styling options are left out. -/
structure Chart where
  type : String
  labels : List String
  dataset : Dataset
  updates : Nat
deriving DecidableEq, Repr

/-! ## The page -/

/-- A `.nav-btn` element: its `data-tab` attribute and whether its class list
holds `active`. -/
structure NavButton where
  dataTab : String
  active : Bool
deriving DecidableEq, Repr

/-- A `.tab-content` element: its id and whether its class list holds
`active`. -/
structure TabContent where
  id : String
  active : Bool
deriving DecidableEq, Repr

/-- An item appended to `#bands-list` by `updateBandsList`. -/
structure BandItem where
  name : String
  range : String
  magnitude : Text
  color : String
deriving DecidableEq, Repr

/-- The content of a container whose `innerHTML` the script replaces: the
markup the page was served with, or a `div.loading` holding a text. -/
inductive Markup where
  | served
  | loading (text : String)
deriving DecidableEq, Repr

/-- The elements of the document that the script reads or writes.  The
elements that carry a `data-tab` attribute are the `.nav-btn` buttons, and
the elements whose id is `<tab>-tab` are the `.tab-content` panels. -/
structure Dom where
  /-- The `.nav-btn` elements. -/
  navButtons : List NavButton
  /-- The `.tab-content` elements. -/
  tabContents : List TabContent
  /-- Elements written by `updateElement`: id and `textContent`. -/
  texts : List (String × Text)
  /-- The `className` of `#status-dot`. -/
  statusDot : Option String
  /-- The `textContent` of `#connection-status`. -/
  statusText : Option String
  /-- Whether `#magnitudeChart` exists. -/
  magnitudeCanvas : Bool
  /-- Whether `#bandsChart` exists. -/
  bandsCanvas : Bool
  /-- Whether `#distributionChart` exists. -/
  distributionCanvas : Bool
  /-- The children of `#bands-list`. -/
  bandsList : Option (List BandItem)
  /-- The content of `#plants-grid`. -/
  plantsGrid : Option Markup
  /-- The content of `#analytics-content`. -/
  analyticsContent : Option Markup
  /-- The `checked` property of `#notifications-toggle`. -/
  notificationsToggle : Option Bool
  /-- The `className` of `document.body`. -/
  bodyClass : String
deriving DecidableEq, Repr

/-! ## Application state (app.js lines 9-18) -/

/-- The record `appState.charts`. -/
structure Charts where
  magnitude : Option Chart
  bands : Option Chart
deriving DecidableEq, Repr

/-- The global `appState`. -/
structure AppState where
  currentTab : String
  refreshInterval : Option Nat
  charts : Charts
  isConnected : Bool
  refreshRate : Int
deriving DecidableEq, Repr

/-- The two keys of `localStorage` that the script uses.  `lastNotification`
is written only as `now.toString()` (line 628) and read back only through
`parseInt` (line 622), so the slot holds an integer timestamp or nothing. -/
structure LocalStorage where
  theme : Option String
  lastNotification : Option Int
deriving DecidableEq, Repr

/-- A constructed `Notification`. -/
structure Notification where
  title : String
  body : Text
  icon : String
deriving DecidableEq, Repr

/-- An active interval timer of the browser. -/
structure Timer where
  handle : Nat
  period : Int
deriving DecidableEq, Repr

/-- Everything the script can observe or change. -/
structure World where
  appState : AppState
  dom : Dom
  localStorage : LocalStorage
  /-- The value of `Notification.permission`, or `none` when `window` has no
  `Notification`. -/
  notificationPermission : Option String
  /-- The notifications constructed so far, oldest first. -/
  notifications : List Notification
  /-- The active interval timers. -/
  timers : List Timer
  /-- How many interval timers the browser has handed out; handles are
  `1, 2, 3, ...`. -/
  timersCreated : Nat
  /-- The URLs passed to `fetch`, oldest first. -/
  requests : List String
  /-- The lines written to the console, oldest first. -/
  console : List String
deriving DecidableEq, Repr

/-- The value of `appState` when the script is loaded (lines 9-18). -/
def initialAppState : AppState :=
  { currentTab := "dashboard"
    refreshInterval := none
    charts := { magnitude := none, bands := none }
    isConnected := false
    refreshRate := 2000 }

/-! ## Notifications (app.js lines 612-632) -/

/-- The test `!lastNotification || (now - parseInt(lastNotification)) > 30000`
of line 622. -/
def throttleOpen (lastNotification : Option Int) (now : Int) : Bool :=
  match lastNotification with
  | none => true
  | some last => decide (now - last > 30000)

/-- The notification constructed at lines 623-626. -/
def plantNotification (data : SensorReading) : Notification :=
  { title := "🌱 Sua planta está falando!"
    body := [Piece.lit data.plant_name, Piece.lit " está se comunicando em ",
             Piece.fixed data.dominant_frequency 1, Piece.lit " Hz"]
    icon := "/favicon.ico" }

/-- `checkNotifications(data)`, with the value that `Date.now()` returns. -/
def checkNotifications (w : World) (data : SensorReading) (now : Int) : World :=
  let notificationsEnabled := w.dom.notificationsToggle
  if notificationsEnabled = some true ∧ w.notificationPermission = some "granted" then
    if data.status = "online" ∧ data.dominant_magnitude > 1 / 10 then
      let lastNotification := w.localStorage.lastNotification
      if throttleOpen lastNotification now = true then
        { w with
          notifications := w.notifications ++ [plantNotification data]
          localStorage := { w.localStorage with lastNotification := some now } }
      else w
    else w
  else w

/-- The call `checkNotifications(data)` at time `now` in world `w` fires: it
constructs one notification. -/
def Fires (w : World) (data : SensorReading) (now : Int) : Prop :=
  ∃ n, (checkNotifications w data now).notifications = w.notifications ++ [n]

/-! ## Interval timers of the browser -/

/-- `setInterval(callback, delay)`: hands out the next handle and registers a
timer with that period.  Every timer of this script has the same callback,
`tick` below. -/
def setInterval (w : World) (delay : Int) : Nat × World :=
  let handle := w.timersCreated + 1
  (handle,
    { w with
      timers := w.timers ++ [{ handle := handle, period := delay }]
      timersCreated := handle })

/-- `clearInterval(handle)`: the timer with that handle, if any, stops. -/
def clearInterval (w : World) (handle : Nat) : World :=
  { w with timers := w.timers.filter (fun t => t.handle != handle) }

/-! ## The status indicator (app.js lines 181-202) -/

/-- `updateConnectionStatus(status)`. -/
def updateConnectionStatus (w : World) (status : String) : World :=
  match w.dom.statusDot, w.dom.statusText with
  | some _, some _ =>
    let w1 := { w with dom := { w.dom with statusDot := some ("status-dot " ++ status) } }
    if status = "online" then
      { w1 with
        dom := { w1.dom with statusText := some "Online" }
        appState := { w1.appState with isConnected := true } }
    else if status = "offline" then
      { w1 with
        dom := { w1.dom with statusText := some "Offline" }
        appState := { w1.appState with isConnected := false } }
    else if status = "connecting" then
      { w1 with dom := { w1.dom with statusText := some "Conectando..." } }
    else w1
  | _, _ => w

/-! ## The dashboard (app.js lines 145-179, 205-385) -/

/-- The first element with the given id receives the new `textContent`. -/
def setText (id : String) (value : Text) : List (String × Text) → List (String × Text)
  | [] => []
  | e :: es => if e.1 = id then (e.1, value) :: es else e :: setText id value es

/-- `updateElement(id, value)`. -/
def updateElement (w : World) (id : String) (value : Text) : World :=
  { w with dom := { w.dom with texts := setText id value w.dom.texts } }

/-- `updateMagnitudeChart(historyData)`. -/
def updateMagnitudeChart (w : World) (historyData : List HistoryPoint) : World :=
  if w.dom.magnitudeCanvas = false then w
  else
    match w.appState.charts.magnitude with
    | some chart =>
      let chart1 := { chart with labels := historyData.map (fun (item : HistoryPoint) => item.time) }
      let chart2 := { chart1 with
        dataset := { chart1.dataset with data := historyData.map (fun (item : HistoryPoint) => item.magnitude) } }
      let chart3 := { chart2 with updates := chart2.updates + 1 }
      { w with appState := { w.appState with
          charts := { w.appState.charts with magnitude := some chart3 } } }
    | none =>
      let chart : Chart :=
        { type := "line"
          labels := historyData.map (fun (item : HistoryPoint) => item.time)
          dataset :=
            { label := some "Magnitude da Comunicação"
              data := historyData.map (fun (item : HistoryPoint) => item.magnitude)
              backgroundColor := ["rgba(34, 197, 94, 0.1)"]
              borderColor := ["#22c55e"] }
          updates := 0 }
      { w with appState := { w.appState with
          charts := { w.appState.charts with magnitude := some chart } } }

/-- `updateBandsChart(bandsData)`. -/
def updateBandsChart (w : World) (bandsData : List Band) : World :=
  if w.dom.bandsCanvas = false then w
  else
    match w.appState.charts.bands with
    | some chart =>
      let chart1 := { chart with labels := bandsData.map (fun (band : Band) => band.name) }
      let chart2 := { chart1 with
        dataset := { chart1.dataset with data := bandsData.map (fun (band : Band) => band.magnitude_db) } }
      let chart3 := { chart2 with
        dataset := { chart2.dataset with
          backgroundColor := bandsData.map (fun (band : Band) => band.color) } }
      let chart4 := { chart3 with updates := chart3.updates + 1 }
      { w with appState := { w.appState with
          charts := { w.appState.charts with bands := some chart4 } } }
    | none =>
      let chart : Chart :=
        { type := "bar"
          labels := bandsData.map (fun (band : Band) => band.name)
          dataset :=
            { label := some "Magnitude (dB)"
              data := bandsData.map (fun (band : Band) => band.magnitude_db)
              backgroundColor := bandsData.map (fun (band : Band) => band.color)
              borderColor := bandsData.map (fun (band : Band) => band.color) }
          updates := 0 }
      { w with appState := { w.appState with
          charts := { w.appState.charts with bands := some chart } } }

/-- `updateBandsList(bandsData)`. -/
def updateBandsList (w : World) (bandsData : List Band) : World :=
  match w.dom.bandsList with
  | none => w
  | some _ =>
    { w with dom := { w.dom with
        bandsList := some (bandsData.map (fun band =>
          { name := band.name
            range := band.range
            magnitude := [Piece.fixed band.magnitude_db 1, Piece.lit " dB"]
            color := band.color })) } }

/-- `createDistributionChart(distributionData)`: the chart constructed on
`#distributionChart`, or `none` when the page has no such canvas. -/
def createDistributionChart (dom : Dom) (distributionData : List FrequencyBucket) :
    Option Chart :=
  if dom.distributionCanvas = false then none
  else
    some
      { type := "doughnut"
        labels := distributionData.map (fun (item : FrequencyBucket) => item.range)
        dataset :=
          { label := none
            data := distributionData.map (fun (item : FrequencyBucket) => item.percentage)
            backgroundColor := ["#22c55e", "#16a34a", "#15803d", "#166534"]
            borderColor := ["rgba(255, 255, 255, 0.1)"] }
        updates := 0 }

/-- `updateDashboard(data)`, with the value that `Date.now()` returns inside
`checkNotifications`. -/
def updateDashboard (w : World) (data : SensorReading) (now : Int) : World :=
  let w1 := updateElement w "raw-value" [Piece.num data.raw_value]
  let w2 := updateElement w1 "voltage" [Piece.num data.voltage, Piece.lit " V"]
  let w3 := updateElement w2 "dominant-magnitude" [Piece.fixed data.dominant_magnitude 3]
  let w4 := updateElement w3 "dominant-magnitude-db"
    [Piece.fixed data.dominant_magnitude_db 1, Piece.lit " dB"]
  let w5 := updateElement w4 "average-magnitude" [Piece.fixed data.average_magnitude 3]
  let freqValue : Text :=
    if data.dominant_frequency < 1000 then
      [Piece.fixed data.dominant_frequency 1, Piece.lit " Hz"]
    else
      [Piece.fixed (data.dominant_frequency / 1000) 2, Piece.lit " kHz"]
  let w6 := updateElement w5 "dominant-freq" freqValue
  let plantStatus : Text :=
    if data.status = "online" then [Piece.lit "🟢 Planta Falando"]
    else [Piece.lit "🔴 Silêncio"]
  let w7 := updateElement w6 "plant-status" plantStatus
  let w8 := updateMagnitudeChart w7 data.history
  let w9 := updateBandsChart w8 data.bands
  let w10 := updateBandsList w9 data.bands
  checkNotifications w10 data now

/-- `updateDashboard(data)` on a JSON value whose `dominant_magnitude` is
absent or is not a number: lines 147 and 148 write their two readouts, with
the texts that `data.raw_value` and `data.voltage` render as, and
`data.dominant_magnitude.toFixed(3)` at line 149 throws a `TypeError`.  The
result is the error and the world at the throw. -/
def updateDashboardIncomplete (w : World) (raw_value voltage : Text) : String × World :=
  let w1 := updateElement w "raw-value" raw_value
  let w2 := updateElement w1 "voltage" (voltage ++ [Piece.lit " V"])
  ("TypeError", w2)

/-! ## Loading sensor data (app.js lines 125-143) -/

/-- What `response.json()` settles to: a rejection (the body is not JSON),
a value that decodes into a `SensorReading`, or a JSON value that is not a
`SensorReading` because its `dominant_magnitude` is absent or is not a
number.  For the last, `raw_value` is the text that line 147 leaves in
`#raw-value` (empty when the field is absent) and `voltage` the text of
`data.voltage` in the template literal of line 148 (`undefined` when the
field is absent).  JSON values on which `updateDashboard` throws at a later
line are not distinguished. -/
inductive Body where
  | malformed (error : String)
  | decoded (data : SensorReading)
  | incomplete (raw_value voltage : Text)
deriving DecidableEq, Repr

/-- How the `fetch` of `loadSensorData` settles: the promise rejects, or a
response arrives with an HTTP status and a body. -/
inductive FetchOutcome where
  | rejected (error : String)
  | response (status : Nat) (body : Body)
deriving DecidableEq, Repr

/-- `response.ok`: the status is in the range 200-299. -/
def responseOk (status : Nat) : Bool :=
  decide (200 ≤ status) && decide (status ≤ 299)

/-- The part of `loadSensorData` that runs at the call, up to the first
`await`: the indicator goes to `connecting` and the request is issued. -/
def loadSensorDataStart (w : World) : World :=
  let w1 := updateConnectionStatus w "connecting"
  { w1 with requests := w1.requests ++ [API_BASE_URL ++ "/data"] }

/-- The rest of the `try` block of `loadSensorData`, run when the fetch
settles; `Except.error` is a thrown error, with the world at the throw.
Nothing is read or written between the two `await`s, so they are taken
together. -/
def loadSensorDataTry (w : World) (outcome : FetchOutcome) (now : Int) :
    Except (String × World) World :=
  match outcome with
  | FetchOutcome.rejected error => Except.error (error, w)
  | FetchOutcome.response status body =>
    if responseOk status = false then
      Except.error ("HTTP error! status: " ++ toString status, w)
    else
      match body with
      | Body.malformed error => Except.error (error, w)
      | Body.decoded data =>
        Except.ok (updateConnectionStatus (updateDashboard w data now) "online")
      | Body.incomplete raw_value voltage =>
        Except.error (updateDashboardIncomplete w raw_value voltage)

/-- The `catch` block of `loadSensorData`. -/
def loadSensorDataCatch (w : World) (error : String) : World :=
  let w1 := { w with console := w.console ++ ["Erro ao carregar dados do sensor: " ++ error] }
  updateConnectionStatus w1 "offline"

/-- The part of `loadSensorData` that runs when the fetch settles: the rest
of the `try` block, and the `catch` block, in the world at the throw, if it
threw.  `Except.error` would be an error that leaves `loadSensorData`. -/
def loadSensorDataComplete (w : World) (outcome : FetchOutcome) (now : Int) :
    Except String World :=
  match loadSensorDataTry w outcome now with
  | Except.ok w1 => Except.ok w1
  | Except.error (error, w1) => Except.ok (loadSensorDataCatch w1 error)

/-! ## Polling (app.js lines 103-122) -/

/-- The callback of the interval timer (lines 108-112). -/
def tick (w : World) : World :=
  if w.appState.currentTab = "dashboard" then loadSensorDataStart w else w

/-- `startDataRefresh()`. -/
def startDataRefresh (w : World) : World :=
  let w1 :=
    match w.appState.refreshInterval with
    | some handle => if handle ≠ 0 then clearInterval w handle else w
    | none => w
  let (handle, w2) := setInterval w1 w1.appState.refreshRate
  { w2 with appState := { w2.appState with refreshInterval := some handle } }

/-- `restartDataRefresh()`. -/
def restartDataRefresh (w : World) : World :=
  let w1 := startDataRefresh w
  { w1 with console := w1.console ++
      ["🔄 Intervalo de atualização alterado para " ++ toString w1.appState.refreshRate ++ "ms"] }

/-- The `change` handler of `#refresh-rate` (lines 76-79), with the value
that `parseInt(this.value)` returns. -/
def refreshRateChanged (w : World) (value : Int) : World :=
  restartDataRefresh { w with appState := { w.appState with refreshRate := value } }

/-- `loadInitialData()`. -/
def loadInitialData (w : World) : World :=
  loadSensorDataStart w

/-! ## Tabs (app.js lines 46-67, 388-395, 453-460) -/

/-- An error that no handler of the script catches: the `error` listener of
`window` (lines 655-657) writes it to the console. -/
def uncaught (w : World) (error : String) : World :=
  { w with console := w.console ++ ["Erro na aplicação: " ++ error] }

/-- The first element that satisfies `p` gets `active` in its class list. -/
def activateFirst {α : Type} (p : α → Bool) (activate : α → α) : List α → List α
  | [] => []
  | e :: es => if p e then activate e :: es else e :: activateFirst p activate es

/-- The part of `loadPlantsData` that runs at the call. -/
def loadPlantsDataStart (w : World) : World :=
  match w.dom.plantsGrid with
  | none => w
  | some _ =>
    { w with
      dom := { w.dom with plantsGrid := some (Markup.loading "Carregando plantas...") }
      requests := w.requests ++ [API_BASE_URL ++ "/plants"] }

/-- The part of `loadAnalyticsData` that runs at the call. -/
def loadAnalyticsDataStart (w : World) : World :=
  match w.dom.analyticsContent with
  | none => w
  | some _ =>
    { w with
      dom := { w.dom with analyticsContent := some (Markup.loading "Carregando analytics...") }
      requests := w.requests ++ [API_BASE_URL ++ "/analytics/summary"] }

/-- `switchTab(tabId)`, up to the suspension of the load it starts. -/
def switchTab (w : World) (tabId : String) : World :=
  let w1 := { w with dom := { w.dom with
    navButtons := w.dom.navButtons.map (fun btn => { btn with active := false }) } }
  if w1.dom.navButtons.any (fun btn => btn.dataTab == tabId) = false then
    uncaught w1 "TypeError"
  else
    let w2 := { w1 with dom := { w1.dom with
      navButtons := activateFirst (fun btn => btn.dataTab == tabId)
        (fun btn => { btn with active := true }) w1.dom.navButtons } }
    let w3 := { w2 with dom := { w2.dom with
      tabContents := w2.dom.tabContents.map (fun tab => { tab with active := false }) } }
    if w3.dom.tabContents.any (fun tab => tab.id == tabId ++ "-tab") = false then
      uncaught w3 "TypeError"
    else
      let w4 := { w3 with dom := { w3.dom with
        tabContents := activateFirst (fun tab => tab.id == tabId ++ "-tab")
          (fun tab => { tab with active := true }) w3.dom.tabContents } }
      let w5 := { w4 with appState := { w4.appState with currentTab := tabId } }
      if tabId = "plants" then loadPlantsDataStart w5
      else if tabId = "analytics" then loadAnalyticsDataStart w5
      else w5

/-! ## Start-up (app.js lines 25-32) -/

/-- `initializeApp()`: `setupNavigation` and `setupSettings` only attach
listeners. -/
def initializeApp (w : World) : World :=
  let w1 := startDataRefresh w
  let w2 := loadInitialData w1
  { w2 with console := w2.console ++ ["🌱 Plantas que Falam - Aplicação iniciada"] }

/-- The world in which the script starts on a given page. -/
def initialWorld (dom : Dom) (storage : LocalStorage) (permission : Option String) : World :=
  { appState := initialAppState
    dom := dom
    localStorage := storage
    notificationPermission := permission
    notifications := []
    timers := []
    timersCreated := 0
    requests := []
    console := [] }

/-! ## The theme (app.js lines 82-86, 97-100) -/

/-- `changeTheme(theme)`; the `change` handler of `#theme-select` calls it
with the selected value. -/
def changeTheme (w : World) (theme : String) : World :=
  { w with
    dom := { w.dom with bodyClass := theme ++ "-theme" }
    localStorage := { w.localStorage with theme := some theme } }

/-- The page is loaded again: the document is the served one, `appState` is
the one of lines 9-18, the timer table, the logs and the notifications are
new, `localStorage` and the notification permission are kept, and
`initializeApp` runs. -/
def reload (served : Dom) (w : World) : World :=
  initializeApp (initialWorld served w.localStorage w.notificationPermission)

/-! ## Utilities (app.js lines 635-645) -/

/-- `formatDate(dateString)`, with the time value of `new Date(dateString)`
(`none` for an invalid date, whose time value is `NaN`) and the time value of
`new Date()`, both in milliseconds.  `Math.floor` of a quotient is the floor
division of integers; every comparison with `NaN` is false. -/
def formatDate (date : Option Int) (now : Int) : String :=
  match date with
  | none => "NaNd"
  | some date =>
    let diffMs := now - date
    let diffMins := Int.fdiv diffMs 60000
    if diffMins < 1 then "Agora"
    else if diffMins < 60 then toString diffMins ++ "m"
    else if diffMins < 1440 then toString (Int.fdiv diffMins 60) ++ "h"
    else toString (Int.fdiv diffMins 1440) ++ "d"

/-! ## Predicates on worlds -/

/-- The active timers carry handles that the browser has handed out: positive
and at most `timersCreated`. -/
def TimersWellFormed (w : World) : Prop :=
  ∀ t ∈ w.timers, 0 < t.handle ∧ t.handle ≤ w.timersCreated

/-- The `appState.refreshInterval` slot is `null` and no timer is active, or
it holds the handle of the only active timer. -/
def SingleTimer (w : World) : Prop :=
  (w.appState.refreshInterval = none ∧ w.timers = []) ∨
    ∃ t, w.appState.refreshInterval = some t.handle ∧ w.timers = [t]

/-- The fetch of `loadSensorData` failed: the promise rejected, the status is
not 2xx, or the body did not decode. -/
def FetchOutcome.failed : FetchOutcome → Bool
  | FetchOutcome.rejected _ => true
  | FetchOutcome.response _ (Body.malformed _) => true
  | FetchOutcome.response status (Body.decoded _) => !responseOk status
  | FetchOutcome.response status (Body.incomplete _ _) => !responseOk status

/-- Both elements of the status indicator, `#status-dot` and
`#connection-status`, exist. -/
def HasIndicator (w : World) : Prop :=
  w.dom.statusDot.isSome = true ∧ w.dom.statusText.isSome = true

/-- The flag `appState.isConnected` is set only on a page that has the
status indicator.  It holds when the script is loaded and every function of
the script keeps it: `updateConnectionStatus` is the only writer of the flag
and writes it only when both elements exist, and no function removes them. -/
def ConnectedHasIndicator (w : World) : Prop :=
  w.appState.isConnected = true → HasIndicator w

/-- What `updateConnectionStatus` reads and writes: the flag and the two
elements of the indicator. -/
def indicator (w : World) : Bool × Option String × Option String :=
  (w.appState.isConnected, w.dom.statusDot, w.dom.statusText)

/-- The state of the poller: the timer slot, the tab, the rate, the timer
table of the browser and the requests issued. -/
def pollerState (w : World) : Option Nat × String × Int × List Timer × Nat × List String :=
  (w.appState.refreshInterval, w.appState.currentTab, w.appState.refreshRate,
    w.timers, w.timersCreated, w.requests)

/-- The world `w` with another value of `appState.currentTab`. -/
def withTab (w : World) (tab : String) : World :=
  { w with appState := { w.appState with currentTab := tab } }

/-! ## A sample page -/

/-- A page that has every element the script looks up, with the
notifications toggle checked. -/
def sampleDom : Dom :=
  { navButtons :=
      [{ dataTab := "dashboard", active := true },
       { dataTab := "plants", active := false },
       { dataTab := "analytics", active := false }]
    tabContents :=
      [{ id := "dashboard-tab", active := true },
       { id := "plants-tab", active := false },
       { id := "analytics-tab", active := false }]
    texts :=
      [("raw-value", []), ("voltage", []), ("dominant-magnitude", []),
       ("dominant-magnitude-db", []), ("average-magnitude", []),
       ("dominant-freq", []), ("plant-status", [])]
    statusDot := some "status-dot"
    statusText := some ""
    magnitudeCanvas := true
    bandsCanvas := true
    distributionCanvas := true
    bandsList := some []
    plantsGrid := some Markup.served
    analyticsContent := some Markup.served
    notificationsToggle := some true
    bodyClass := "" }

/-- A reading of a plant that is `online` with dominant magnitude 0.5. -/
def sampleReading : SensorReading :=
  { raw_value := 512
    voltage := 33 / 10
    dominant_magnitude := 1 / 2
    dominant_magnitude_db := -6
    average_magnitude := 1 / 4
    dominant_frequency := 440
    status := "online"
    plant_name := "Samambaia"
    history := [{ time := "10:00:00", magnitude := 1 / 4 }, { time := "10:00:02", magnitude := 1 / 2 }]
    bands := [{ name := "Baixa", range := "0-100 Hz", magnitude_db := -10, color := "#22c55e" }] }

/-- The sample page when the script is loaded, with empty storage and the
notification permission granted. -/
def sampleWorld : World :=
  initialWorld sampleDom { theme := none, lastNotification := none } (some "granted")

/-- The body `{}`: well-formed JSON with no field at all.  Line 147 leaves
`#raw-value` empty and line 148 renders `undefined V`. -/
def emptyObjectBody : Body :=
  Body.incomplete [] [Piece.lit "undefined"]

/-- The sample page without its `#status-dot` element. -/
def sampleWorldNoDot : World :=
  { sampleWorld with dom := { sampleDom with statusDot := none } }

/-- A history of 25 points, more than `CHART_MAX_POINTS`. -/
def longHistory : List HistoryPoint :=
  (List.range 25).map (fun i => { time := toString i, magnitude := (i : ℚ) / 100 })

/-- The distribution payload of the scenario of the specification. -/
def samplePayload : List FrequencyBucket :=
  [{ range := "0-1kHz", percentage := 40 }, { range := "1-2kHz", percentage := 65 }]

/-! # Properties -/

/-! ## The notification gate -/

/-- The throttle test passes when nothing is stored or when the stored
timestamp is more than 30000 ms old. -/
theorem throttleOpen_iff (lastNotification : Option Int) (now : Int) :
    throttleOpen lastNotification now = true ↔
      (lastNotification = none ∨
        ∃ last, lastNotification = some last ∧ now - last > 30000) := by
  cases lastNotification with
  | none => simp [throttleOpen]
  | some last => simp [throttleOpen]

/-- When every condition of the gate holds, the call appends the notification
and stores `now`. -/
theorem checkNotifications_of_open (w : World) (data : SensorReading) (now : Int)
    (htoggle : w.dom.notificationsToggle = some true)
    (hperm : w.notificationPermission = some "granted")
    (hstatus : data.status = "online")
    (hmag : data.dominant_magnitude > 1 / 10)
    (hthrottle : throttleOpen w.localStorage.lastNotification now = true) :
    checkNotifications w data now =
      { w with
        notifications := w.notifications ++ [plantNotification data]
        localStorage := { w.localStorage with lastNotification := some now } } := by
  unfold checkNotifications
  rw [if_pos ⟨htoggle, hperm⟩, if_pos ⟨hstatus, hmag⟩, if_pos hthrottle]

/-- When some condition of the gate fails, the call changes nothing. -/
theorem checkNotifications_of_closed (w : World) (data : SensorReading) (now : Int)
    (h : ¬ (w.dom.notificationsToggle = some true ∧
          w.notificationPermission = some "granted" ∧
          data.status = "online" ∧ data.dominant_magnitude > 1 / 10 ∧
          throttleOpen w.localStorage.lastNotification now = true)) :
    checkNotifications w data now = w := by
  unfold checkNotifications
  by_cases h1 : w.dom.notificationsToggle = some true ∧
      w.notificationPermission = some "granted"
  · by_cases h2 : data.status = "online" ∧ data.dominant_magnitude > 1 / 10
    · by_cases h3 : throttleOpen w.localStorage.lastNotification now = true
      · exact absurd ⟨h1.1, h1.2, h2.1, h2.2, h3⟩ h
      · simp [h1, h2, h3]
    · simp only [h1, h2]
      simp
  · simp only [h1]
    simp

/-- A list is not itself with one more element. -/
theorem ne_append_singleton {α : Type} (l : List α) (a : α) : l ≠ l ++ [a] := by
  intro h
  have hlen := congrArg List.length h
  simp at hlen

/-- The call fires exactly when every condition of the gate holds. -/
theorem fires_iff_open (w : World) (data : SensorReading) (now : Int) :
    Fires w data now ↔
      (w.dom.notificationsToggle = some true ∧
        w.notificationPermission = some "granted" ∧
        data.status = "online" ∧ data.dominant_magnitude > 1 / 10 ∧
        throttleOpen w.localStorage.lastNotification now = true) := by
  constructor
  · intro hf
    by_contra hc
    obtain ⟨n, hn⟩ := hf
    rw [checkNotifications_of_closed w data now hc] at hn
    exact ne_append_singleton _ _ hn
  · rintro ⟨h1, h2, h3, h4, h5⟩
    exact ⟨plantNotification data, by rw [checkNotifications_of_open w data now h1 h2 h3 h4 h5]⟩

/-- C1. For every reading, every state of the settings, permission and
storage, and every time `now`, `checkNotifications` fires a notification if
and only if the toggle is checked, the permission is `granted`, the status
of the reading is `online`, its dominant magnitude is above 0.1, and either
no `lastNotification` is stored or the stored one is more than 30000 ms
before `now`.  A call that does not fire changes nothing; so unchecking the
toggle suppresses every firing, and a reading of magnitude at most 0.1 never
fires. -/
theorem checkNotifications_fires_iff (w : World) (data : SensorReading) (now : Int) :
    (Fires w data now ↔
      (w.dom.notificationsToggle = some true ∧
        w.notificationPermission = some "granted" ∧
        data.status = "online" ∧ data.dominant_magnitude > 1 / 10 ∧
        (w.localStorage.lastNotification = none ∨
          ∃ last, w.localStorage.lastNotification = some last ∧ now - last > 30000))) ∧
    (¬ Fires w data now ↔ checkNotifications w data now = w) ∧
    (w.dom.notificationsToggle ≠ some true → ¬ Fires w data now) ∧
    (data.dominant_magnitude ≤ 1 / 10 → ¬ Fires w data now) := by
  have hiff := fires_iff_open w data now
  rw [throttleOpen_iff] at hiff
  refine ⟨hiff, ?_, ?_, ?_⟩
  · constructor
    · intro hn
      apply checkNotifications_of_closed
      rw [← fires_iff_open]
      exact hn
    · rintro heq ⟨n, hn⟩
      rw [heq] at hn
      exact ne_append_singleton _ _ hn
  · intro ht hf
    exact ht (hiff.mp hf).1
  · intro hm hf
    exact absurd (hiff.mp hf).2.2.2.1 (not_lt.mpr hm)

/-- An instance of C1, the scenario of the specification: a reading that is
`online` with dominant magnitude 0.05 does not fire on the sample page, with
the toggle checked and the permission granted. -/
theorem checkNotifications_fires_iff_witness :
    ¬ Fires sampleWorld { sampleReading with dominant_magnitude := 1 / 20 } 1000 :=
  (checkNotifications_fires_iff sampleWorld
    { sampleReading with dominant_magnitude := 1 / 20 } 1000).2.2.2 (by norm_num)

/-- C2. The throttle window.  Starting with no stored `lastNotification`,
with the toggle checked and the permission granted, for every time `t` and
every two readings that are `online` with magnitude above 0.1: the calls at
`t` and `t + 29999` fire exactly one notification (the first), and the calls
at `t` and `t + 30001` fire exactly two. -/
theorem checkNotifications_throttle_window (w : World) (r1 r2 : SensorReading) (t : Int)
    (hlast : w.localStorage.lastNotification = none)
    (htoggle : w.dom.notificationsToggle = some true)
    (hperm : w.notificationPermission = some "granted")
    (hstatus1 : r1.status = "online") (hmag1 : r1.dominant_magnitude > 1 / 10)
    (hstatus2 : r2.status = "online") (hmag2 : r2.dominant_magnitude > 1 / 10) :
    (checkNotifications (checkNotifications w r1 t) r2 (t + 29999)).notifications =
        w.notifications ++ [plantNotification r1] ∧
    (checkNotifications (checkNotifications w r1 t) r2 (t + 30001)).notifications =
        w.notifications ++ [plantNotification r1, plantNotification r2] := by
  have hfirst := checkNotifications_of_open w r1 t htoggle hperm hstatus1 hmag1
    (by rw [hlast]; rfl)
  have htoggle1 : (checkNotifications w r1 t).dom.notificationsToggle = some true := by
    rw [hfirst]; exact htoggle
  have hperm1 : (checkNotifications w r1 t).notificationPermission = some "granted" := by
    rw [hfirst]; exact hperm
  have hlast1 : (checkNotifications w r1 t).localStorage.lastNotification = some t := by
    rw [hfirst]
  have hlog1 : (checkNotifications w r1 t).notifications =
      w.notifications ++ [plantNotification r1] := by
    rw [hfirst]
  constructor
  · have hclosed : throttleOpen (some t) (t + 29999) = false := by
      simp [throttleOpen]
    rw [checkNotifications_of_closed (checkNotifications w r1 t) r2 (t + 29999), hlog1]
    intro h
    have h5 := h.2.2.2.2
    rw [hlast1, hclosed] at h5
    exact Bool.noConfusion h5
  · have hopen : throttleOpen (some t) (t + 30001) = true := by
      simp [throttleOpen]
    rw [checkNotifications_of_open (checkNotifications w r1 t) r2 (t + 30001)
      htoggle1 hperm1 hstatus2 hmag2 (by rw [hlast1]; exact hopen)]
    simp [hlog1]

/-- C3. A call of `checkNotifications` at time `now` that fires leaves `now`
as the stored `lastNotification`; a call that does not fire leaves
`localStorage` exactly as it was. -/
theorem checkNotifications_lastNotification (w : World) (data : SensorReading) (now : Int) :
    (Fires w data now →
      (checkNotifications w data now).localStorage.lastNotification = some now) ∧
    (¬ Fires w data now →
      (checkNotifications w data now).localStorage = w.localStorage) := by
  constructor
  · intro hf
    obtain ⟨h1, h2, h3, h4, h5⟩ := (fires_iff_open w data now).mp hf
    rw [checkNotifications_of_open w data now h1 h2 h3 h4 h5]
  · intro hn
    rw [checkNotifications_of_closed w data now (fun h => hn ((fires_iff_open w data now).mpr h))]

/-- An instance of C2 on the sample page: calls at 1000 and 30999 fire once,
calls at 1000 and 31001 fire twice. -/
theorem checkNotifications_throttle_window_witness :
    (checkNotifications (checkNotifications sampleWorld sampleReading 1000) sampleReading
        (1000 + 29999)).notifications =
        sampleWorld.notifications ++ [plantNotification sampleReading] ∧
    (checkNotifications (checkNotifications sampleWorld sampleReading 1000) sampleReading
        (1000 + 30001)).notifications =
        sampleWorld.notifications ++
          [plantNotification sampleReading, plantNotification sampleReading] :=
  checkNotifications_throttle_window sampleWorld sampleReading sampleReading 1000
    rfl rfl rfl rfl (by norm_num [sampleReading]) rfl (by norm_num [sampleReading])

/-! ## The polling timer -/

/-- The world when the script is loaded has no timer. -/
theorem initialWorld_timers (dom : Dom) (storage : LocalStorage) (permission : Option String) :
    TimersWellFormed (initialWorld dom storage permission) ∧
      SingleTimer (initialWorld dom storage permission) := by
  constructor
  · intro t ht
    simp [initialWorld] at ht
  · left
    simp [initialWorld, initialAppState]

/-- From a well-formed single-timer state, `startDataRefresh` leaves exactly
the timer it creates. -/
theorem startDataRefresh_spec (w : World) (hwf : TimersWellFormed w) (hs : SingleTimer w) :
    (startDataRefresh w).timers =
        [{ handle := w.timersCreated + 1, period := w.appState.refreshRate }] ∧
      (startDataRefresh w).appState.refreshInterval = some (w.timersCreated + 1) ∧
      (startDataRefresh w).timersCreated = w.timersCreated + 1 ∧
      (startDataRefresh w).appState.refreshRate = w.appState.refreshRate := by
  rcases hs with ⟨hnone, hempty⟩ | ⟨t, hsome, hone⟩
  · simp [startDataRefresh, setInterval, hnone, hempty]
  · have hpos : t.handle ≠ 0 := by
      have := (hwf t (by rw [hone]; exact List.mem_singleton_self t)).1
      omega
    simp [startDataRefresh, setInterval, clearInterval, hsome, hone, hpos]

/-- One change of the refresh rate, from a well-formed single-timer state. -/
theorem refreshRateChanged_spec (w : World) (r : Int)
    (hwf : TimersWellFormed w) (hs : SingleTimer w) :
    (refreshRateChanged w r).timers = [{ handle := w.timersCreated + 1, period := r }] ∧
      (refreshRateChanged w r).appState.refreshInterval = some (w.timersCreated + 1) ∧
      (refreshRateChanged w r).timersCreated = w.timersCreated + 1 := by
  have h := startDataRefresh_spec
    { w with appState := { w.appState with refreshRate := r } } hwf hs
  obtain ⟨h1, h2, h3, _⟩ := h
  refine ⟨?_, ?_, ?_⟩
  · simpa [refreshRateChanged, restartDataRefresh] using h1
  · simpa [refreshRateChanged, restartDataRefresh] using h2
  · simpa [refreshRateChanged, restartDataRefresh] using h3

/-- One change of the refresh rate keeps the state well-formed with a single
timer. -/
theorem refreshRateChanged_preserves (w : World) (r : Int)
    (hwf : TimersWellFormed w) (hs : SingleTimer w) :
    TimersWellFormed (refreshRateChanged w r) ∧ SingleTimer (refreshRateChanged w r) := by
  obtain ⟨h1, h2, h3⟩ := refreshRateChanged_spec w r hwf hs
  constructor
  · intro t ht
    rw [h1] at ht
    rw [List.mem_singleton] at ht
    rw [h3, ht]
    exact ⟨Nat.succ_pos _, le_refl _⟩
  · right
    exact ⟨{ handle := w.timersCreated + 1, period := r }, h2, h1⟩

/-- Any sequence of changes of the refresh rate keeps the state well-formed
with a single timer. -/
theorem refreshRateChanged_foldl_preserves (rates : List Int) :
    ∀ w : World, TimersWellFormed w → SingleTimer w →
      TimersWellFormed (rates.foldl refreshRateChanged w) ∧
        SingleTimer (rates.foldl refreshRateChanged w) := by
  induction rates with
  | nil => intro w hwf hs; exact ⟨hwf, hs⟩
  | cons r rs ih =>
    intro w hwf hs
    obtain ⟨hwf1, hs1⟩ := refreshRateChanged_preserves w r hwf hs
    exact ih (refreshRateChanged w r) hwf1 hs1

/-- After a non-empty sequence of changes the only timer is the one of the
last change. -/
theorem refreshRateChanged_foldl_spec (rates : List Int) :
    ∀ (w : World) (hne : rates ≠ []), TimersWellFormed w → SingleTimer w →
      (rates.foldl refreshRateChanged w).timers =
          [{ handle := w.timersCreated + rates.length, period := rates.getLast hne }] ∧
        (rates.foldl refreshRateChanged w).appState.refreshInterval =
          some (w.timersCreated + rates.length) := by
  induction rates with
  | nil => intro w hne; exact absurd rfl hne
  | cons r rs ih =>
    intro w hne hwf hs
    obtain ⟨h1, h2, h3⟩ := refreshRateChanged_spec w r hwf hs
    obtain ⟨hwf1, hs1⟩ := refreshRateChanged_preserves w r hwf hs
    by_cases hrs : rs = []
    · subst hrs
      simpa using ⟨h1, h2⟩
    · obtain ⟨i1, i2⟩ := ih (refreshRateChanged w r) hrs hwf1 hs1
      rw [h3] at i1 i2
      rw [List.getLast_cons hrs]
      simp only [List.foldl_cons, List.length_cons]
      constructor
      · rw [i1]; congr 2; omega
      · rw [i2]; congr 1; omega

/-- C4. For every non-empty sequence of positive refresh rates, setting
`appState.refreshRate` to each rate and calling `restartDataRefresh`, in
sequence, from a state in which `appState.refreshInterval` is `null` with no
active timer or is the handle of the only active timer, leaves exactly one
active timer; its handle is the one in `appState.refreshInterval`, its period
is the last rate (and positive), and no timer that was active after an
earlier call (or before the first) is active any more. -/
theorem restartDataRefresh_single_timer (w : World) (rates : List Int)
    (hwf : TimersWellFormed w) (hstart : SingleTimer w)
    (hne : rates ≠ []) (hpos : ∀ r ∈ rates, 0 < r) :
    (∃ t, (rates.foldl refreshRateChanged w).timers = [t] ∧
        (rates.foldl refreshRateChanged w).appState.refreshInterval = some t.handle ∧
        t.period = rates.getLast hne ∧ 0 < t.period) ∧
    (∀ pre suf, rates = pre ++ suf → suf ≠ [] →
        ∀ u ∈ (pre.foldl refreshRateChanged w).timers,
          ∀ v ∈ (rates.foldl refreshRateChanged w).timers, v.handle ≠ u.handle) := by
  constructor
  · obtain ⟨h1, h2⟩ := refreshRateChanged_foldl_spec rates w hne hwf hstart
    exact ⟨_, h1, h2, rfl, hpos _ (List.getLast_mem hne)⟩
  · intro pre suf hsplit hsuf u hu v hv
    obtain ⟨hwf1, hs1⟩ := refreshRateChanged_foldl_preserves pre w hwf hstart
    obtain ⟨h1, _⟩ := refreshRateChanged_foldl_spec suf (pre.foldl refreshRateChanged w)
      hsuf hwf1 hs1
    rw [hsplit, List.foldl_append, h1, List.mem_singleton] at hv
    have hle := (hwf1 u hu).2
    have hlen : 0 < suf.length := List.length_pos.mpr hsuf
    rw [hv]
    simp only
    omega

/-- An instance of C4: from the world at load, the rates 5000, 1000, 2000
leave one timer, of period 2000. -/
theorem restartDataRefresh_single_timer_witness :
    (∃ t, (([5000, 1000, 2000] : List Int).foldl refreshRateChanged sampleWorld).timers = [t] ∧
        (([5000, 1000, 2000] : List Int).foldl refreshRateChanged
          sampleWorld).appState.refreshInterval = some t.handle ∧
        t.period = ([5000, 1000, 2000] : List Int).getLast (by simp) ∧ 0 < t.period) ∧
    (∀ pre suf, ([5000, 1000, 2000] : List Int) = pre ++ suf → suf ≠ [] →
        ∀ u ∈ (pre.foldl refreshRateChanged sampleWorld).timers,
          ∀ v ∈ (([5000, 1000, 2000] : List Int).foldl refreshRateChanged sampleWorld).timers,
            v.handle ≠ u.handle) :=
  restartDataRefresh_single_timer sampleWorld [5000, 1000, 2000]
    (initialWorld_timers _ _ _).1 (initialWorld_timers _ _ _).2 (by simp) (by simp)

/-! ## The status indicator -/

/-- What `updateConnectionStatus` leaves alone: everything but the flag and
the two elements of the indicator. -/
theorem updateConnectionStatus_frame (w : World) (status : String) :
    (updateConnectionStatus w status).appState.refreshInterval = w.appState.refreshInterval ∧
      (updateConnectionStatus w status).appState.currentTab = w.appState.currentTab ∧
      (updateConnectionStatus w status).appState.charts = w.appState.charts ∧
      (updateConnectionStatus w status).timers = w.timers ∧
      (updateConnectionStatus w status).requests = w.requests ∧
      (updateConnectionStatus w status).localStorage = w.localStorage ∧
      (updateConnectionStatus w status).notifications = w.notifications ∧
      (updateConnectionStatus w status).dom.texts = w.dom.texts := by
  unfold updateConnectionStatus
  split
  · split_ifs <;> simp
  · simp

/-- On a page without the indicator `updateConnectionStatus` does nothing. -/
theorem updateConnectionStatus_of_missing (w : World) (status : String)
    (h : ¬ HasIndicator w) : updateConnectionStatus w status = w := by
  unfold updateConnectionStatus
  split
  · rename_i a b ha hb
    exact absurd (by simp [HasIndicator, ha, hb]) h
  · rfl

/-- On a page with the indicator, `offline` clears the flag. -/
theorem updateConnectionStatus_offline (w : World) (h : HasIndicator w) :
    (updateConnectionStatus w "offline").appState.isConnected = false ∧
      (updateConnectionStatus w "offline").dom.statusDot = some "status-dot offline" ∧
      (updateConnectionStatus w "offline").dom.statusText = some "Offline" := by
  obtain ⟨h1, h2⟩ := h
  obtain ⟨a, ha⟩ := Option.isSome_iff_exists.mp h1
  obtain ⟨b, hb⟩ := Option.isSome_iff_exists.mp h2
  simp [updateConnectionStatus, ha, hb]

/-- On a page with the indicator, `online` sets the flag. -/
theorem updateConnectionStatus_online (w : World) (h : HasIndicator w) :
    (updateConnectionStatus w "online").appState.isConnected = true ∧
      (updateConnectionStatus w "online").dom.statusDot = some "status-dot online" ∧
      (updateConnectionStatus w "online").dom.statusText = some "Online" := by
  obtain ⟨h1, h2⟩ := h
  obtain ⟨a, ha⟩ := Option.isSome_iff_exists.mp h1
  obtain ⟨b, hb⟩ := Option.isSome_iff_exists.mp h2
  simp [updateConnectionStatus, ha, hb]

/-- On a page with the indicator, `connecting` shows on the indicator and
leaves the flag. -/
theorem updateConnectionStatus_connecting (w : World) (h : HasIndicator w) :
    (updateConnectionStatus w "connecting").appState.isConnected = w.appState.isConnected ∧
      (updateConnectionStatus w "connecting").dom.statusDot = some "status-dot connecting" ∧
      (updateConnectionStatus w "connecting").dom.statusText = some "Conectando..." := by
  obtain ⟨h1, h2⟩ := h
  obtain ⟨a, ha⟩ := Option.isSome_iff_exists.mp h1
  obtain ⟨b, hb⟩ := Option.isSome_iff_exists.mp h2
  simp [updateConnectionStatus, ha, hb]

/-- The indicator elements survive `updateConnectionStatus`. -/
theorem updateConnectionStatus_hasIndicator (w : World) (status : String) :
    HasIndicator (updateConnectionStatus w status) ↔ HasIndicator w := by
  by_cases h : HasIndicator w
  · simp only [h, iff_true]
    obtain ⟨h1, h2⟩ := h
    obtain ⟨a, ha⟩ := Option.isSome_iff_exists.mp h1
    obtain ⟨b, hb⟩ := Option.isSome_iff_exists.mp h2
    unfold updateConnectionStatus HasIndicator
    rw [ha, hb]
    simp only
    split_ifs <;> simp [hb]
  · rw [updateConnectionStatus_of_missing w status h]

/-- The flag is set only on a page with the indicator, after
`updateConnectionStatus` as before. -/
theorem updateConnectionStatus_preserves (w : World) (status : String)
    (hinv : ConnectedHasIndicator w) :
    ConnectedHasIndicator (updateConnectionStatus w status) := by
  intro hc
  by_cases h : HasIndicator w
  · exact (updateConnectionStatus_hasIndicator w status).mpr h
  · rw [updateConnectionStatus_of_missing w status h] at hc ⊢
    exact hinv hc

/-! ## What the dashboard update leaves alone -/

/-- `updateElement` touches neither the indicator nor the poller. -/
theorem updateElement_frame (w : World) (id : String) (value : Text) :
    indicator (updateElement w id value) = indicator w ∧
      pollerState (updateElement w id value) = pollerState w := by
  simp [updateElement, indicator, pollerState]

/-- `updateMagnitudeChart` touches neither the indicator nor the poller. -/
theorem updateMagnitudeChart_frame (w : World) (historyData : List HistoryPoint) :
    indicator (updateMagnitudeChart w historyData) = indicator w ∧
      pollerState (updateMagnitudeChart w historyData) = pollerState w := by
  unfold updateMagnitudeChart
  split_ifs
  · exact ⟨rfl, rfl⟩
  · split <;> exact ⟨rfl, rfl⟩

/-- `updateBandsChart` touches neither the indicator nor the poller. -/
theorem updateBandsChart_frame (w : World) (bandsData : List Band) :
    indicator (updateBandsChart w bandsData) = indicator w ∧
      pollerState (updateBandsChart w bandsData) = pollerState w := by
  unfold updateBandsChart
  split_ifs
  · exact ⟨rfl, rfl⟩
  · split <;> exact ⟨rfl, rfl⟩

/-- `updateBandsList` touches neither the indicator nor the poller. -/
theorem updateBandsList_frame (w : World) (bandsData : List Band) :
    indicator (updateBandsList w bandsData) = indicator w ∧
      pollerState (updateBandsList w bandsData) = pollerState w := by
  unfold updateBandsList
  split <;> exact ⟨rfl, rfl⟩

/-- `checkNotifications` touches neither the indicator nor the poller. -/
theorem checkNotifications_frame (w : World) (data : SensorReading) (now : Int) :
    indicator (checkNotifications w data now) = indicator w ∧
      pollerState (checkNotifications w data now) = pollerState w := by
  unfold checkNotifications
  simp only
  split_ifs <;> exact ⟨rfl, rfl⟩

/-- `updateDashboard` touches neither the indicator nor the poller. -/
theorem updateDashboard_frame (w : World) (data : SensorReading) (now : Int) :
    indicator (updateDashboard w data now) = indicator w ∧
      pollerState (updateDashboard w data now) = pollerState w := by
  unfold updateDashboard
  simp only
  constructor
  · rw [(checkNotifications_frame _ _ _).1, (updateBandsList_frame _ _).1,
      (updateBandsChart_frame _ _).1, (updateMagnitudeChart_frame _ _).1,
      (updateElement_frame _ _ _).1, (updateElement_frame _ _ _).1,
      (updateElement_frame _ _ _).1, (updateElement_frame _ _ _).1,
      (updateElement_frame _ _ _).1, (updateElement_frame _ _ _).1,
      (updateElement_frame _ _ _).1]
  · rw [(checkNotifications_frame _ _ _).2, (updateBandsList_frame _ _).2,
      (updateBandsChart_frame _ _).2, (updateMagnitudeChart_frame _ _).2,
      (updateElement_frame _ _ _).2, (updateElement_frame _ _ _).2,
      (updateElement_frame _ _ _).2, (updateElement_frame _ _ _).2,
      (updateElement_frame _ _ _).2, (updateElement_frame _ _ _).2,
      (updateElement_frame _ _ _).2]

/-- `updateDashboard` keeps the indicator elements and the flag. -/
theorem updateDashboard_hasIndicator (w : World) (data : SensorReading) (now : Int) :
    (HasIndicator (updateDashboard w data now) ↔ HasIndicator w) ∧
      (updateDashboard w data now).appState.isConnected = w.appState.isConnected := by
  have h := (updateDashboard_frame w data now).1
  simp only [indicator, Prod.mk.injEq] at h
  obtain ⟨h1, h2, h3⟩ := h
  exact ⟨by unfold HasIndicator; rw [h2, h3], h1⟩

/-- `updateConnectionStatus` leaves the poller alone. -/
theorem updateConnectionStatus_pollerState (w : World) (status : String) :
    pollerState (updateConnectionStatus w status) = pollerState w := by
  unfold updateConnectionStatus
  split
  · split_ifs <;> rfl
  · rfl

/-! ## Loading sensor data -/

/-- Whether the flag is set only on a page with the indicator depends on the
flag and the two elements alone. -/
theorem connectedHasIndicator_congr (w v : World) (h : indicator v = indicator w) :
    ConnectedHasIndicator v ↔ ConnectedHasIndicator w := by
  simp only [indicator, Prod.mk.injEq] at h
  obtain ⟨h1, h2, h3⟩ := h
  unfold ConnectedHasIndicator HasIndicator
  rw [h1, h2, h3]

/-- The part of `loadSensorData` that runs at the call issues one request
and leaves the timer slot, the tab and the timers alone. -/
theorem loadSensorDataStart_frame (w : World) :
    (loadSensorDataStart w).requests = w.requests ++ [API_BASE_URL ++ "/data"] ∧
      (loadSensorDataStart w).appState.refreshInterval = w.appState.refreshInterval ∧
      (loadSensorDataStart w).appState.currentTab = w.appState.currentTab ∧
      (loadSensorDataStart w).timers = w.timers := by
  have h := updateConnectionStatus_pollerState w "connecting"
  simp only [pollerState, Prod.mk.injEq] at h
  obtain ⟨h1, h2, _, h4, _, h6⟩ := h
  simp only [loadSensorDataStart]
  exact ⟨by rw [h6], h1, h2, h4⟩

/-- The part of `loadSensorData` that runs at the call keeps the flag set
only on a page with the indicator. -/
theorem loadSensorDataStart_preserves (w : World) (hinv : ConnectedHasIndicator w) :
    ConnectedHasIndicator (loadSensorDataStart w) := by
  have h := updateConnectionStatus_preserves w "connecting" hinv
  exact (connectedHasIndicator_congr (updateConnectionStatus w "connecting")
    (loadSensorDataStart w) rfl).mpr h

/-- The `try` block throws on every failed fetch, before it has written
anything. -/
theorem loadSensorDataTry_of_failed (w : World) (outcome : FetchOutcome) (now : Int)
    (hfail : outcome.failed = true) :
    ∃ error, loadSensorDataTry w outcome now = Except.error (error, w) := by
  cases outcome with
  | rejected error => exact ⟨error, rfl⟩
  | response status body =>
    cases body with
    | malformed error =>
      by_cases hok : responseOk status = false
      · exact ⟨"HTTP error! status: " ++ toString status, by simp [loadSensorDataTry, hok]⟩
      · exact ⟨error, by simp [loadSensorDataTry, hok]⟩
    | decoded data =>
      have hok : responseOk status = false := by
        simpa [FetchOutcome.failed] using hfail
      exact ⟨"HTTP error! status: " ++ toString status, by simp [loadSensorDataTry, hok]⟩
    | incomplete raw_value voltage =>
      have hok : responseOk status = false := by
        simpa [FetchOutcome.failed] using hfail
      exact ⟨"HTTP error! status: " ++ toString status, by simp [loadSensorDataTry, hok]⟩

/-- When the `try` block throws, it has touched neither the indicator nor
the poller. -/
theorem loadSensorDataTry_error_frame (w : World) (outcome : FetchOutcome) (now : Int)
    (thrown : String × World)
    (h : loadSensorDataTry w outcome now = Except.error thrown) :
    indicator thrown.2 = indicator w ∧ pollerState thrown.2 = pollerState w := by
  cases outcome with
  | rejected error =>
    simp only [loadSensorDataTry, Except.error.injEq] at h
    rw [← h]
    exact ⟨rfl, rfl⟩
  | response status body =>
    cases hok : responseOk status
    · simp only [loadSensorDataTry, hok, if_true, Except.error.injEq] at h
      rw [← h]
      exact ⟨rfl, rfl⟩
    · cases body with
      | malformed error =>
        simp [loadSensorDataTry, hok] at h
        rw [← h]
        exact ⟨rfl, rfl⟩
      | decoded data =>
        simp [loadSensorDataTry, hok] at h
      | incomplete raw_value voltage =>
        simp [loadSensorDataTry, hok] at h
        rw [← h]
        exact ⟨rfl, rfl⟩

/-- The `catch` block leaves the flag cleared and the poller alone. -/
theorem loadSensorDataCatch_spec (w : World) (error : String)
    (hinv : ConnectedHasIndicator w) :
    (loadSensorDataCatch w error).appState.isConnected = false ∧
      pollerState (loadSensorDataCatch w error) = pollerState w := by
  unfold loadSensorDataCatch
  simp only
  generalize hv : ({ w with console :=
    w.console ++ ["Erro ao carregar dados do sensor: " ++ error] } : World) = v
  have hind : indicator v = indicator w := by rw [← hv]; rfl
  have hpoll : pollerState v = pollerState w := by rw [← hv]; rfl
  have hinv1 : ConnectedHasIndicator v := (connectedHasIndicator_congr w v hind).mpr hinv
  constructor
  · by_cases h : HasIndicator v
    · exact (updateConnectionStatus_offline v h).1
    · rw [updateConnectionStatus_of_missing v _ h]
      by_contra hc
      exact h (hinv1 (by simpa using hc))
  · rw [updateConnectionStatus_pollerState, hpoll]

/-- C5. For every failed sensor fetch (the fetch rejects, the status is not
2xx, or the body does not decode), in every world in which the flag
`appState.isConnected` is set only if the page has the status indicator
(every world the script reaches): the part of `loadSensorData` run at the
call leaves `appState.refreshInterval` and the timers unchanged, and its
completion propagates no error, leaves `appState.isConnected = false`,
leaves `appState.refreshInterval` and the timers unchanged, and a tick that
follows on the dashboard issues a fetch again. -/
theorem loadSensorData_failure (w : World) (outcome : FetchOutcome) (now : Int)
    (hinv : ConnectedHasIndicator w) (hfail : outcome.failed = true) :
    ((loadSensorDataStart w).appState.refreshInterval = w.appState.refreshInterval ∧
      (loadSensorDataStart w).timers = w.timers ∧
      ConnectedHasIndicator (loadSensorDataStart w)) ∧
    ∃ w1, loadSensorDataComplete w outcome now = Except.ok w1 ∧
      w1.appState.isConnected = false ∧
      w1.appState.refreshInterval = w.appState.refreshInterval ∧
      w1.timers = w.timers ∧
      (w1.appState.currentTab = "dashboard" →
        (tick w1).requests = w1.requests ++ [API_BASE_URL ++ "/data"]) := by
  constructor
  · obtain ⟨_, h2, _, h4⟩ := loadSensorDataStart_frame w
    exact ⟨h2, h4, loadSensorDataStart_preserves w hinv⟩
  · obtain ⟨error, herr⟩ := loadSensorDataTry_of_failed w outcome now hfail
    obtain ⟨hflag, hpoll⟩ := loadSensorDataCatch_spec w error hinv
    simp only [pollerState, Prod.mk.injEq] at hpoll
    obtain ⟨h1, _, _, h4, _, _⟩ := hpoll
    refine ⟨loadSensorDataCatch w error, ?_, hflag, h1, h4, ?_⟩
    · simp [loadSensorDataComplete, herr]
    · intro htab
      simp only [tick, htab, if_true]
      exact (loadSensorDataStart_frame _).1

/-- An instance of C5: on the sample page an HTTP 500 leaves the flag
cleared and the timer slot as it was. -/
theorem loadSensorData_failure_witness :
    ((loadSensorDataStart sampleWorld).appState.refreshInterval =
        sampleWorld.appState.refreshInterval ∧
      (loadSensorDataStart sampleWorld).timers = sampleWorld.timers ∧
      ConnectedHasIndicator (loadSensorDataStart sampleWorld)) ∧
    ∃ w1, loadSensorDataComplete sampleWorld
        (FetchOutcome.response 500 (Body.decoded sampleReading)) 1000 = Except.ok w1 ∧
      w1.appState.isConnected = false ∧
      w1.appState.refreshInterval = sampleWorld.appState.refreshInterval ∧
      w1.timers = sampleWorld.timers ∧
      (w1.appState.currentTab = "dashboard" →
        (tick w1).requests = w1.requests ++ [API_BASE_URL ++ "/data"]) :=
  loadSensorData_failure sampleWorld (FetchOutcome.response 500 (Body.decoded sampleReading))
    1000 (fun h => Bool.noConfusion h) rfl

/-- On a page without `#status-dot`, `updateConnectionStatus` writes
nothing: on the sample page without the dot a successful fetch leaves the
flag `appState.isConnected` cleared. -/
theorem loadSensorData_success_without_indicator :
    responseOk 200 = true ∧
    ∃ w1, loadSensorDataComplete (loadSensorDataStart sampleWorldNoDot)
        (FetchOutcome.response 200 (Body.decoded sampleReading)) 1000 = Except.ok w1 ∧
      w1.appState.isConnected = false := by
  refine ⟨rfl, _, rfl, ?_⟩
  have hmiss : ¬ HasIndicator (loadSensorDataStart sampleWorldNoDot) := by
    intro h
    exact Bool.noConfusion h.1
  have hmiss2 : ¬ HasIndicator
      (updateDashboard (loadSensorDataStart sampleWorldNoDot) sampleReading 1000) :=
    fun h => hmiss ((updateDashboard_hasIndicator _ _ _).1.mp h)
  rw [updateConnectionStatus_of_missing _ _ hmiss2, (updateDashboard_hasIndicator _ _ _).2]
  rfl

/-- On a page that misses an element of the indicator, the part of
`loadSensorData` run at the call changes only the request log, and the
completion of a successful fetch leaves the flag as it was. -/
theorem loadSensorData_success_of_missing (w : World) (data : SensorReading) (now : Int)
    (h : ¬ HasIndicator w) :
    loadSensorDataStart w = { w with requests := w.requests ++ [API_BASE_URL ++ "/data"] } ∧
      updateConnectionStatus (updateDashboard w data now) "online" =
        updateDashboard w data now ∧
      (updateDashboard w data now).appState.isConnected = w.appState.isConnected := by
  refine ⟨?_, ?_, (updateDashboard_hasIndicator w data now).2⟩
  · simp only [loadSensorDataStart]
    rw [updateConnectionStatus_of_missing w _ h]
  · exact updateConnectionStatus_of_missing _ _
      (fun hh => h ((updateDashboard_hasIndicator w data now).1.mp hh))

/-- A 2xx response whose body is JSON without a numeric `dominant_magnitude`
ends in the `catch` block: on a page with the indicator the completion of
`loadSensorData` propagates no error and finishes with `offline` and the
flag cleared. -/
theorem loadSensorData_incomplete_body (w : World) (status : Nat) (raw_value voltage : Text)
    (now : Int) (hok : responseOk status = true) (hind : HasIndicator w) :
    ∃ w1, loadSensorDataComplete w
        (FetchOutcome.response status (Body.incomplete raw_value voltage)) now =
        Except.ok w1 ∧
      w1.dom.statusDot = some "status-dot offline" ∧
      w1.dom.statusText = some "Offline" ∧
      w1.appState.isConnected = false := by
  have hind1 : HasIndicator
      { (updateDashboardIncomplete w raw_value voltage).2 with
        console := (updateDashboardIncomplete w raw_value voltage).2.console ++
          ["Erro ao carregar dados do sensor: " ++
            (updateDashboardIncomplete w raw_value voltage).1] } := hind
  obtain ⟨o1, o2, o3⟩ := updateConnectionStatus_offline _ hind1
  refine ⟨_, ?_, o2, o3, o1⟩
  simp [loadSensorDataComplete, loadSensorDataTry, hok, loadSensorDataCatch]

/-- The sample page receives HTTP 200 with the body `{}`: line 149 throws
inside the `try`, and the completion of `loadSensorData` finishes with
`offline` and `appState.isConnected = false`, after lines 147 and 148 have
written their readouts.  The statement of C6 fails there. -/
theorem loadSensorData_success_incomplete_body :
    responseOk 200 = true ∧
    HasIndicator (loadSensorDataStart sampleWorld) ∧
    ∃ w1, loadSensorDataComplete (loadSensorDataStart sampleWorld)
        (FetchOutcome.response 200 emptyObjectBody) 1000 = Except.ok w1 ∧
      w1.dom.texts.lookup "voltage" = some [Piece.lit "undefined", Piece.lit " V"] ∧
      w1.dom.statusDot = some "status-dot offline" ∧
      w1.dom.statusText = some "Offline" ∧
      w1.appState.isConnected = false :=
  ⟨rfl, ⟨rfl, rfl⟩, _, rfl, rfl, rfl, rfl, rfl⟩

/-- C6, amended. For every sensor fetch that succeeds with a 2xx status and
a body that decodes into a `SensorReading`, on a page that has the two
elements of the status indicator: the part of `loadSensorData` run at the
call sets the connection status to `connecting`, and the completion forwards
the reading to `updateDashboard` (readouts, charts, band list and
notification gate), calls `updateConnectionStatus('online')` and finishes
with the connection status `online` and `appState.isConnected = true`. -/
theorem loadSensorData_success (w : World) (status : Nat) (data : SensorReading) (now : Int)
    (hok : responseOk status = true) (hind : HasIndicator w) :
    ((loadSensorDataStart w).dom.statusDot = some "status-dot connecting" ∧
      (loadSensorDataStart w).dom.statusText = some "Conectando...") ∧
    loadSensorDataComplete w (FetchOutcome.response status (Body.decoded data)) now =
        Except.ok (updateConnectionStatus (updateDashboard w data now) "online") ∧
    (updateConnectionStatus (updateDashboard w data now) "online").dom.statusDot =
        some "status-dot online" ∧
    (updateConnectionStatus (updateDashboard w data now) "online").dom.statusText =
        some "Online" ∧
    (updateConnectionStatus (updateDashboard w data now) "online").appState.isConnected =
        true := by
  obtain ⟨_, c2, c3⟩ := updateConnectionStatus_connecting w hind
  obtain ⟨o1, o2, o3⟩ := updateConnectionStatus_online _
    ((updateDashboard_hasIndicator w data now).1.mpr hind)
  refine ⟨⟨c2, c3⟩, ?_, o2, o3, o1⟩
  simp [loadSensorDataComplete, loadSensorDataTry, hok]

/-- An instance of C6, amended, on the sample page. -/
theorem loadSensorData_success_witness :
    ((loadSensorDataStart sampleWorld).dom.statusDot = some "status-dot connecting" ∧
      (loadSensorDataStart sampleWorld).dom.statusText = some "Conectando...") ∧
    loadSensorDataComplete sampleWorld
        (FetchOutcome.response 200 (Body.decoded sampleReading)) 1000 =
        Except.ok (updateConnectionStatus (updateDashboard sampleWorld sampleReading 1000)
          "online") ∧
    (updateConnectionStatus (updateDashboard sampleWorld sampleReading 1000)
        "online").dom.statusDot = some "status-dot online" ∧
    (updateConnectionStatus (updateDashboard sampleWorld sampleReading 1000)
        "online").dom.statusText = some "Online" ∧
    (updateConnectionStatus (updateDashboard sampleWorld sampleReading 1000)
        "online").appState.isConnected = true :=
  loadSensorData_success sampleWorld 200 sampleReading 1000 rfl ⟨rfl, rfl⟩

/-! ## The tick of the polling timer -/

/-- C7. In every world whose current tab is not `dashboard` a tick of the
polling timer changes nothing: no request is issued, and the indicator, the
charts, the storage and every other part of the world stay as they were.
When the current tab is `dashboard` the tick starts one load of the sensor
data: it issues exactly one request, to `/api/sensor/data`. -/
theorem tick_dashboard_only (w : World) :
    (w.appState.currentTab ≠ "dashboard" → tick w = w) ∧
    (w.appState.currentTab = "dashboard" →
      tick w = loadSensorDataStart w ∧
      (tick w).requests = w.requests ++ [API_BASE_URL ++ "/data"]) := by
  constructor
  · intro h
    simp [tick, h]
  · intro h
    have ht : tick w = loadSensorDataStart w := by simp [tick, h]
    exact ⟨ht, by rw [ht]; exact (loadSensorDataStart_frame w).1⟩

/-! ## A response that arrives after a change of tab -/

/-- `startDataRefresh` touches neither the flag nor the indicator. -/
theorem startDataRefresh_indicator (w : World) :
    indicator (startDataRefresh w) = indicator w := by
  unfold startDataRefresh
  cases h : w.appState.refreshInterval with
  | none => rfl
  | some handle =>
    simp only
    split_ifs <;> rfl

/-- `switchTab` touches neither the flag nor the indicator. -/
theorem switchTab_indicator (w : World) (tabId : String) :
    indicator (switchTab w tabId) = indicator w := by
  unfold switchTab
  simp only
  split_ifs
  · rfl
  · rfl
  · unfold loadPlantsDataStart
    split <;> rfl
  · unfold loadAnalyticsDataStart
    split <;> rfl
  · rfl

/-- `updateConnectionStatus` does not read the current tab. -/
theorem updateConnectionStatus_withTab (w : World) (status tab : String) :
    updateConnectionStatus (withTab w tab) status =
      withTab (updateConnectionStatus w status) tab := by
  unfold updateConnectionStatus
  cases h1 : w.dom.statusDot <;> cases h2 : w.dom.statusText <;>
    simp only [withTab, h1, h2]
  split_ifs <;> rfl

/-- `updateMagnitudeChart` does not read the current tab. -/
theorem updateMagnitudeChart_withTab (w : World) (historyData : List HistoryPoint)
    (tab : String) :
    updateMagnitudeChart (withTab w tab) historyData =
      withTab (updateMagnitudeChart w historyData) tab := by
  unfold updateMagnitudeChart
  cases h1 : w.dom.magnitudeCanvas <;> cases h2 : w.appState.charts.magnitude <;>
    simp [withTab, h1, h2]

/-- `updateBandsChart` does not read the current tab. -/
theorem updateBandsChart_withTab (w : World) (bandsData : List Band) (tab : String) :
    updateBandsChart (withTab w tab) bandsData =
      withTab (updateBandsChart w bandsData) tab := by
  unfold updateBandsChart
  cases h1 : w.dom.bandsCanvas <;> cases h2 : w.appState.charts.bands <;>
    simp [withTab, h1, h2]

/-- `updateBandsList` does not read the current tab. -/
theorem updateBandsList_withTab (w : World) (bandsData : List Band) (tab : String) :
    updateBandsList (withTab w tab) bandsData =
      withTab (updateBandsList w bandsData) tab := by
  unfold updateBandsList
  cases h1 : w.dom.bandsList <;> simp [withTab, h1]

/-- `checkNotifications` does not read the current tab. -/
theorem checkNotifications_withTab (w : World) (data : SensorReading) (now : Int)
    (tab : String) :
    checkNotifications (withTab w tab) data now =
      withTab (checkNotifications w data now) tab := by
  unfold checkNotifications
  simp only [withTab]
  split_ifs <;> rfl

/-- `updateDashboard` does not read the current tab. -/
theorem updateDashboard_withTab (w : World) (data : SensorReading) (now : Int)
    (tab : String) :
    updateDashboard (withTab w tab) data now = withTab (updateDashboard w data now) tab := by
  unfold updateDashboard
  simp only
  have he : ∀ (v : World) (id : String) (value : Text),
      updateElement (withTab v tab) id value = withTab (updateElement v id value) tab :=
    fun _ _ _ => rfl
  rw [he, he, he, he, he, he, he, updateMagnitudeChart_withTab, updateBandsChart_withTab,
    updateBandsList_withTab, checkNotifications_withTab]

/-- The completion of `loadSensorData` does not read the current tab. -/
theorem loadSensorDataComplete_withTab (w : World) (outcome : FetchOutcome) (now : Int)
    (tab : String) :
    loadSensorDataComplete (withTab w tab) outcome now =
      (loadSensorDataComplete w outcome now).map (fun v => withTab v tab) := by
  have hcatch : ∀ (v : World) (error : String), loadSensorDataCatch (withTab v tab) error =
      withTab (loadSensorDataCatch v error) tab := by
    intro v error
    unfold loadSensorDataCatch
    simp only
    rw [← updateConnectionStatus_withTab]
    rfl
  cases outcome with
  | rejected error =>
    simp [loadSensorDataComplete, loadSensorDataTry, hcatch, Except.map]
  | response status body =>
    cases hok : responseOk status
    · simp [loadSensorDataComplete, loadSensorDataTry, hcatch, Except.map, hok]
    · cases body with
      | malformed error =>
        simp [loadSensorDataComplete, loadSensorDataTry, hcatch, Except.map, hok]
      | decoded data =>
        simp [loadSensorDataComplete, loadSensorDataTry, Except.map, hok,
          updateDashboard_withTab, updateConnectionStatus_withTab]
      | incomplete raw_value voltage =>
        have hpartial : updateElement (updateElement (withTab w tab) "raw-value" raw_value)
            "voltage" (voltage ++ [Piece.lit " V"]) =
            withTab (updateElement (updateElement w "raw-value" raw_value)
              "voltage" (voltage ++ [Piece.lit " V"])) tab := rfl
        simp only [loadSensorDataComplete, loadSensorDataTry, Except.map, hok,
          updateDashboardIncomplete, hpartial]
        simp [hcatch]

/-- C8, amended. The completion of a sensor fetch is applied whatever the
current tab is.  `loadSensorData` does not read `appState.currentTab` when
the fetch settles: in a world whose tab was changed after the dispatch it
makes the same changes to the readouts, the chart series, the connection
status and the notification timestamp as with the tab unchanged.  So after
`switchTab(tabId)`, for `analytics` as for any tab, a response that arrives
with a 2xx status and a decoded body is forwarded to `updateDashboard`, and
on a page with the status indicator it sets `appState.isConnected`.  Only
the timer tick that dispatches the fetch looks at the tab. -/
theorem loadSensorDataComplete_ignores_tab (w : World) (tabId : String)
    (outcome : FetchOutcome) (now : Int) :
    loadSensorDataComplete (withTab w tabId) outcome now =
        (loadSensorDataComplete w outcome now).map (fun v => withTab v tabId) ∧
    (∀ status data, responseOk status = true →
      loadSensorDataComplete (switchTab w tabId)
          (FetchOutcome.response status (Body.decoded data)) now =
        Except.ok (updateConnectionStatus
          (updateDashboard (switchTab w tabId) data now) "online") ∧
      (HasIndicator w →
        (updateConnectionStatus (updateDashboard (switchTab w tabId) data now)
          "online").appState.isConnected = true)) := by
  refine ⟨loadSensorDataComplete_withTab w outcome now tabId, ?_⟩
  intro status data hok
  refine ⟨by simp [loadSensorDataComplete, loadSensorDataTry, hok], ?_⟩
  intro hind
  have h1 : HasIndicator (switchTab w tabId) := by
    have h := switchTab_indicator w tabId
    simp only [indicator, Prod.mk.injEq] at h
    unfold HasIndicator
    rw [h.2.1, h.2.2]
    exact hind
  exact (updateConnectionStatus_online _
    ((updateDashboard_hasIndicator _ data now).1.mpr h1)).1

/-- `checkNotifications` changes neither `appState` nor the document. -/
theorem checkNotifications_appState (w : World) (data : SensorReading) (now : Int) :
    (checkNotifications w data now).appState = w.appState ∧
      (checkNotifications w data now).dom = w.dom := by
  unfold checkNotifications
  simp only
  split_ifs <;> exact ⟨rfl, rfl⟩

/-- A fetch is dispatched on the dashboard of the sample page, the tab is
switched to `analytics`, and the response arrives: the completion sets the
connection flag, creates the magnitude chart and stores a notification
timestamp.  The statement of C8 fails there. -/
theorem stale_response_changes_dashboard :
    (initializeApp sampleWorld).appState.currentTab = "dashboard" ∧
    (initializeApp sampleWorld).requests = [API_BASE_URL ++ "/data"] ∧
    (switchTab (initializeApp sampleWorld) "analytics").appState.currentTab = "analytics" ∧
    (switchTab (initializeApp sampleWorld) "analytics").appState.isConnected = false ∧
    (switchTab (initializeApp sampleWorld) "analytics").appState.charts.magnitude = none ∧
    (switchTab (initializeApp sampleWorld) "analytics").localStorage.lastNotification = none ∧
    ∃ w1, loadSensorDataComplete (switchTab (initializeApp sampleWorld) "analytics")
        (FetchOutcome.response 200 (Body.decoded sampleReading)) 1000 = Except.ok w1 ∧
      w1.appState.isConnected = true ∧
      w1.appState.charts.magnitude ≠ none ∧
      w1.localStorage.lastNotification = some 1000 := by
  refine ⟨rfl, rfl, rfl, rfl, rfl, rfl, _, rfl, ?_, ?_, ?_⟩
  · have hind : HasIndicator (switchTab (initializeApp sampleWorld) "analytics") := ⟨rfl, rfl⟩
    exact (updateConnectionStatus_online _
      ((updateDashboard_hasIndicator _ sampleReading 1000).1.mpr hind)).1
  · rw [(updateConnectionStatus_frame _ _).2.2.1]
    unfold updateDashboard
    simp only
    rw [(checkNotifications_appState _ _ _).1]
    intro h
    exact Option.noConfusion h
  · rw [(updateConnectionStatus_frame _ _).2.2.2.2.2.1]
    unfold updateDashboard
    simp only
    have key : ∀ v : World, v.dom.notificationsToggle = some true →
        v.notificationPermission = some "granted" → v.localStorage.lastNotification = none →
        (checkNotifications v sampleReading 1000).localStorage.lastNotification =
          some 1000 := by
      intro v h1 h2 h3
      rw [checkNotifications_of_open v sampleReading 1000 h1 h2 rfl
        (by norm_num [sampleReading]) (by rw [h3]; rfl)]
    refine key _ ?_ ?_ ?_ <;> rfl

/-! ## The flag and the indicator along a run -/

/-- The flag `appState.isConnected` is set only on a page with the
indicator in the world at load, and every handler of the script keeps it
so. -/
theorem connectedHasIndicator_invariant (w : World) (hinv : ConnectedHasIndicator w) :
    (∀ dom storage permission, ConnectedHasIndicator (initialWorld dom storage permission)) ∧
    ConnectedHasIndicator (initializeApp w) ∧
    ConnectedHasIndicator (tick w) ∧
    (∀ outcome now w1, loadSensorDataComplete w outcome now = Except.ok w1 →
      ConnectedHasIndicator w1) ∧
    (∀ tabId, ConnectedHasIndicator (switchTab w tabId)) ∧
    (∀ value, ConnectedHasIndicator (refreshRateChanged w value)) := by
  refine ⟨?_, ?_, ?_, ?_, ?_, ?_⟩
  · intro dom storage permission h
    exact Bool.noConfusion h
  · have h1 : ConnectedHasIndicator (startDataRefresh w) :=
      (connectedHasIndicator_congr w _ (startDataRefresh_indicator w)).mpr hinv
    have h2 := loadSensorDataStart_preserves _ h1
    exact (connectedHasIndicator_congr (loadSensorDataStart (startDataRefresh w))
      (initializeApp w) rfl).mpr h2
  · unfold tick
    split_ifs
    · exact loadSensorDataStart_preserves w hinv
    · exact hinv
  · intro outcome now w1 h
    unfold loadSensorDataComplete at h
    cases htry : loadSensorDataTry w outcome now with
    | error thrown =>
      rw [htry] at h
      simp only [Except.ok.injEq] at h
      rw [← h]
      unfold loadSensorDataCatch
      exact updateConnectionStatus_preserves _ _
        ((connectedHasIndicator_congr w _
          (loadSensorDataTry_error_frame w outcome now thrown htry).1).mpr hinv)
    | ok v =>
      rw [htry] at h
      simp only [Except.ok.injEq] at h
      rw [← h]
      cases outcome with
      | rejected error => simp [loadSensorDataTry] at htry
      | response status body =>
        cases body with
        | malformed error =>
          simp only [loadSensorDataTry] at htry
          split_ifs at htry
        | decoded data =>
          simp only [loadSensorDataTry] at htry
          split_ifs at htry
          simp only [Except.ok.injEq] at htry
          rw [← htry]
          exact updateConnectionStatus_preserves _ _
            ((connectedHasIndicator_congr w _ (updateDashboard_frame w data now).1).mpr hinv)
        | incomplete raw_value voltage =>
          simp only [loadSensorDataTry] at htry
          split_ifs at htry
  · intro tabId
    exact (connectedHasIndicator_congr w _ (switchTab_indicator w tabId)).mpr hinv
  · intro value
    have h := startDataRefresh_indicator
      { w with appState := { w.appState with refreshRate := value } }
    exact (connectedHasIndicator_congr w (refreshRateChanged w value) h).mpr hinv

/-! ## Chart series -/

/-- C9. For every history sequence, of any length, on a page that has the
`#magnitudeChart` canvas, `updateMagnitudeChart` leaves a magnitude chart
whose labels are the `time` values and whose data are the `magnitude`
values, in input order and as many as the input has (nothing is truncated
to `CHART_MAX_POINTS`); this holds both when the chart is created (it is a
new `line` chart) and when an existing instance is updated (it is the old
instance with new labels and data, updated once more). -/
theorem updateMagnitudeChart_series (w : World) (historyData : List HistoryPoint)
    (hcanvas : w.dom.magnitudeCanvas = true) :
    ∃ chart, (updateMagnitudeChart w historyData).appState.charts.magnitude = some chart ∧
      chart.labels = historyData.map (fun item => item.time) ∧
      chart.dataset.data = historyData.map (fun item => item.magnitude) ∧
      chart.labels.length = historyData.length ∧
      chart.dataset.data.length = historyData.length ∧
      (w.appState.charts.magnitude = none → chart.type = "line" ∧ chart.updates = 0) ∧
      (∀ old, w.appState.charts.magnitude = some old →
        chart = { old with
          labels := historyData.map (fun item => item.time)
          dataset := { old.dataset with data := historyData.map (fun item => item.magnitude) }
          updates := old.updates + 1 }) := by
  unfold updateMagnitudeChart
  cases hchart : w.appState.charts.magnitude with
  | none => simp [hcanvas]
  | some old => simp [hcanvas]

/-- An instance of C9: a history of 25 points on the sample page gives a
chart of 25 points. -/
theorem updateMagnitudeChart_series_witness :
    CHART_MAX_POINTS < longHistory.length ∧
    ∃ chart, (updateMagnitudeChart sampleWorld longHistory).appState.charts.magnitude =
        some chart ∧
      chart.labels = longHistory.map (fun item => item.time) ∧
      chart.dataset.data = longHistory.map (fun item => item.magnitude) ∧
      chart.labels.length = longHistory.length ∧
      chart.dataset.data.length = longHistory.length ∧
      (sampleWorld.appState.charts.magnitude = none →
        chart.type = "line" ∧ chart.updates = 0) ∧
      (∀ old, sampleWorld.appState.charts.magnitude = some old →
        chart = { old with
          labels := longHistory.map (fun item => item.time)
          dataset := { old.dataset with data := longHistory.map (fun item => item.magnitude) }
          updates := old.updates + 1 }) :=
  ⟨by decide, updateMagnitudeChart_series sampleWorld longHistory rfl⟩

/-- C10. For every frequency distribution, on a page that has the
`#distributionChart` canvas, `createDistributionChart` constructs a chart
whose labels are the `range` values and whose data are the `percentage`
values, in input order and unchanged. -/
theorem createDistributionChart_series (dom : Dom) (distributionData : List FrequencyBucket)
    (hcanvas : dom.distributionCanvas = true) :
    ∃ chart, createDistributionChart dom distributionData = some chart ∧
      chart.type = "doughnut" ∧
      chart.labels = distributionData.map (fun item => item.range) ∧
      chart.dataset.data = distributionData.map (fun item => item.percentage) := by
  simp [createDistributionChart, hcanvas]

/-- An instance of C10: the payload of the scenario yields the data
`[40, 65]`, which do not sum to 100. -/
theorem createDistributionChart_series_witness :
    (∃ chart, createDistributionChart sampleDom samplePayload = some chart ∧
      chart.type = "doughnut" ∧
      chart.labels = ["0-1kHz", "1-2kHz"] ∧
      chart.dataset.data = [40, 65]) ∧
    (40 + 65 : ℚ) ≠ 100 :=
  ⟨createDistributionChart_series sampleDom samplePayload rfl, by norm_num⟩

/-! ## The theme across a reload -/

/-- `initializeApp` leaves the document body and `localStorage` as they are:
it never reads the key `theme`. -/
theorem initializeApp_bodyClass (w : World) :
    (initializeApp w).dom.bodyClass = w.dom.bodyClass ∧
      (initializeApp w).localStorage = w.localStorage := by
  have hstart : (startDataRefresh w).dom = w.dom ∧
      (startDataRefresh w).localStorage = w.localStorage := by
    unfold startDataRefresh
    cases h : w.appState.refreshInterval with
    | none => exact ⟨rfl, rfl⟩
    | some handle =>
      simp only
      split_ifs <;> exact ⟨rfl, rfl⟩
  have hstatus : ∀ v : World,
      (updateConnectionStatus v "connecting").dom.bodyClass = v.dom.bodyClass := by
    intro v
    unfold updateConnectionStatus
    split
    · split_ifs <;> rfl
    · rfl
  constructor
  · show (updateConnectionStatus (startDataRefresh w) "connecting").dom.bodyClass = _
    rw [hstatus, hstart.1]
  · show (updateConnectionStatus (startDataRefresh w) "connecting").localStorage = _
    rw [(updateConnectionStatus_frame _ _).2.2.2.2.2.1, hstart.2]

/-- After `changeTheme(theme)` the body class is `<theme>-theme` and the
theme is stored; after a reload the theme is still stored, and the body class
is the one of the served page, whatever theme is stored. -/
theorem changeTheme_reload (served : Dom) (w : World) (theme : String) :
    (changeTheme w theme).dom.bodyClass = theme ++ "-theme" ∧
      (changeTheme w theme).localStorage.theme = some theme ∧
      (reload served (changeTheme w theme)).localStorage.theme = some theme ∧
      (reload served (changeTheme w theme)).dom.bodyClass = served.bodyClass := by
  refine ⟨rfl, rfl, ?_, ?_⟩
  · unfold reload
    rw [(initializeApp_bodyClass _).2]
    rfl
  · unfold reload
    rw [(initializeApp_bodyClass _).1]
    rfl

/-- C11, where the code departs from the claim. On the sample page, served
with an empty body class, `changeTheme('dark')` sets the body class
`dark-theme` and stores `dark` under `theme`; after a reload with the same
storage `initializeApp` has run, `dark` is still stored, and the body class
is the served one, not `dark-theme`: the stored theme is not loaded. -/
theorem changeTheme_reload_loses_theme :
    (changeTheme sampleWorld "dark").dom.bodyClass = "dark-theme" ∧
    (changeTheme sampleWorld "dark").localStorage.theme = some "dark" ∧
    (reload sampleDom (changeTheme sampleWorld "dark")).localStorage.theme = some "dark" ∧
    (reload sampleDom (changeTheme sampleWorld "dark")).dom.bodyClass = "" ∧
    (reload sampleDom (changeTheme sampleWorld "dark")).dom.bodyClass ≠ "dark-theme" := by
  refine ⟨rfl, rfl, rfl, rfl, ?_⟩
  decide

/-! ## Relative dates -/

/-- The floor of an integer over a positive numeral is the integer
quotient. -/
theorem floor_div_natCast (n : Int) (d : Nat) : ⌊(n : ℚ) / (d : ℚ)⌋ = n / (d : Int) :=
  Rat.floor_intCast_div_natCast n d

/-- C12. For every valid timestamp `date` and current time `now`, with
`m = floor((now - date) / 60000)`: `formatDate` returns `Agora` when `m < 1`,
in particular for every timestamp in the future; `<m>m` when `1 ≤ m < 60`;
`<floor(m/60)>h` when `60 ≤ m < 1440`, a number from 1 to 23; and
`<floor(m/1440)>d` when `m ≥ 1440`, a number that is at least 1. -/
theorem formatDate_ranges (date now m : Int)
    (hm : m = ⌊((now - date : Int) : ℚ) / 60000⌋) :
    (m < 1 → formatDate (some date) now = "Agora") ∧
    (now < date → formatDate (some date) now = "Agora") ∧
    (1 ≤ m → m < 60 → formatDate (some date) now = toString m ++ "m") ∧
    (60 ≤ m → m < 1440 →
      formatDate (some date) now = toString ⌊(m : ℚ) / 60⌋ ++ "h" ∧
        1 ≤ ⌊(m : ℚ) / 60⌋ ∧ ⌊(m : ℚ) / 60⌋ ≤ 23) ∧
    (1440 ≤ m →
      formatDate (some date) now = toString ⌊(m : ℚ) / 1440⌋ ++ "d" ∧
        1 ≤ ⌊(m : ℚ) / 1440⌋) := by
  have h1 : ⌊((now - date : Int) : ℚ) / 60000⌋ = (now - date) / 60000 := by
    have h := floor_div_natCast (now - date) 60000
    simpa using h
  have h2 : ⌊(m : ℚ) / 60⌋ = m / 60 := by
    have h := floor_div_natCast m 60
    simpa using h
  have h3 : ⌊(m : ℚ) / 1440⌋ = m / 1440 := by
    have h := floor_div_natCast m 1440
    simpa using h
  have hmins : Int.fdiv (now - date) 60000 = m := by
    rw [Int.fdiv_eq_ediv _ (by decide), hm, h1]
  have hhours : Int.fdiv m 60 = m / 60 := Int.fdiv_eq_ediv _ (by decide)
  have hdays : Int.fdiv m 1440 = m / 1440 := Int.fdiv_eq_ediv _ (by decide)
  have hagora : m < 1 → formatDate (some date) now = "Agora" := by
    intro h
    simp only [formatDate, hmins, if_pos h]
  refine ⟨hagora, ?_, ?_, ?_, ?_⟩
  · intro hfuture
    apply hagora
    rw [hm, h1]
    omega
  · intro hlo hhi
    simp only [formatDate, hmins, if_neg (not_lt.mpr hlo), if_pos hhi]
  · intro hlo hhi
    have hlo1 : ¬ m < 1 := by omega
    have hlo60 : ¬ m < 60 := by omega
    rw [h2]
    refine ⟨?_, by omega, by omega⟩
    simp only [formatDate, hmins, hhours, if_neg hlo1, if_neg hlo60, if_pos hhi]
  · intro hlo
    have hlo1 : ¬ m < 1 := by omega
    have hlo60 : ¬ m < 60 := by omega
    have hlo1440 : ¬ m < 1440 := by omega
    rw [h3]
    refine ⟨?_, by omega⟩
    simp only [formatDate, hmins, hdays, if_neg hlo1, if_neg hlo60, if_neg hlo1440]

/-- An instance of C12: a timestamp 5000000 ms old is 83 minutes old and
shows as `1h`. -/
theorem formatDate_ranges_witness :
    ((83 : Int) < 1 → formatDate (some 0) 5000000 = "Agora") ∧
    ((5000000 : Int) < 0 → formatDate (some 0) 5000000 = "Agora") ∧
    (1 ≤ (83 : Int) → (83 : Int) < 60 →
      formatDate (some 0) 5000000 = toString (83 : Int) ++ "m") ∧
    (60 ≤ (83 : Int) → (83 : Int) < 1440 →
      formatDate (some 0) 5000000 = toString ⌊((83 : Int) : ℚ) / 60⌋ ++ "h" ∧
        1 ≤ ⌊((83 : Int) : ℚ) / 60⌋ ∧ ⌊((83 : Int) : ℚ) / 60⌋ ≤ 23) ∧
    (1440 ≤ (83 : Int) →
      formatDate (some 0) 5000000 = toString ⌊((83 : Int) : ℚ) / 1440⌋ ++ "d" ∧
        1 ≤ ⌊((83 : Int) : ℚ) / 1440⌋) :=
  formatDate_ranges 0 5000000 83 (by
    rw [eq_comm, Int.floor_eq_iff]
    norm_num)

/-- The values of `formatDate` at the ends of each range. -/
theorem formatDate_boundaries :
    formatDate (some 0) 59999 = "Agora" ∧
    formatDate (some 0) 60000 = "1m" ∧
    formatDate (some 0) 3599999 = "59m" ∧
    formatDate (some 0) 3600000 = "1h" ∧
    formatDate (some 0) 86399999 = "23h" ∧
    formatDate (some 0) 86400000 = "1d" ∧
    formatDate (some 1000) 0 = "Agora" := by
  refine ⟨?_, ?_, ?_, ?_, ?_, ?_, ?_⟩ <;> rfl

end PlantasQueFalam
